import Mathlib

/-!
Verification of the WhatsApp voice-translation pipeline.

Shallow embedding of the voice-note processing pipeline:
  - src/lib/config.js          (audio limits, supported languages)
  - src/utils/mediaHandler.js  (saveAudioBuffer, convertAudioFormat,
                                cleanupTempFile, processAudioBuffer)
  - src/lib/services/google/SpeechToText.js (transcribeAudioFile, adapter boundary)
  - src/lib/services/google/Translation.js  (translateText, translateTextMultiple)
  - src/utils/translationProcessor.js (translateToTargetLanguages, processTranslation)
  - src/utils/responseFormatter.js    (formatTranslatedResponse)
  - src/utils/voiceProcessor.js       (hasSufficientMemory, processVoiceNote)

External effects are modelled explicitly:
  - the filesystem is a ledger of existing paths plus the list of paths ever
    created during a run;
  - nondeterministic collaborators (process heap counters, fs write errors,
    ffmpeg exit status, the speech-to-text adapter, the per-language
    translation API, unlink failures, the clock) are fields of an `Env`
    oracle record;
  - a JavaScript `throw`/`catch` of an Error is an `Except String` value
    carrying the error message (the only part of the error the pipeline
    inspects or rebuilds);
  - JavaScript `null`/`undefined` arguments are `Option.none`; an audio
    `Buffer` is abstracted to its length (`Option Nat`), the only attribute
    the admission logic reads.

Logging and monitoring calls (winston, monitoringService) have no effect on
control flow or data and are omitted.
-/

namespace WhatsAppVoice

/-! ## Configuration (src/lib/config.js) -/

/-- config.audio.maxFileSize: 16MB in bytes, WhatsApp's limit. -/
def maxFileSize : Nat := 16000000

/-- config.audio.tempDir (after Node path.join normalisation of "./temp"). -/
def tempDir : String := "temp"

/-- config.supportedLanguages, in the object's insertion (iteration) order:
language name mapped to ISO code. -/
def supportedLanguages : List (String × String) :=
  [("english", "en"), ("arabic", "ar"), ("hindi", "hi"), ("spanish", "es")]

/-! ## JavaScript value helpers -/

/-- ErrorHandler.handleError returns `error.message || 'An unknown error
occurred'`; rethrow sites build `new Error(handledError.error)`, so an empty
message is replaced by the fallback and every other message is preserved. -/
def jsMsgOr (m : String) : String :=
  if m = "" then "An unknown error occurred" else m

/-- The characters after the last occurrence of c in l (none when c is
absent). -/
def afterLast (c : Char) (l : List Char) : Option (List Char) :=
  match l with
  | [] => none
  | a :: rest =>
    match afterLast c rest with
    | some r => some r
    | none => if a = c then some rest else none

/-- Node path.extname: the suffix of the basename from its last dot
(including the dot); empty when the basename has no dot or only a leading
dot (dotfile). -/
def extname (p : String) : String :=
  let base := (afterLast '/' p.data).getD p.data
  match base with
  | [] => ""
  | _ :: rest =>
    match afterLast '.' rest with
    | some ext => String.mk ('.' :: ext)
    | none => ""

/-- Left-to-right scan replacing the first occurrence of pat. -/
def replaceFirstData (s pat repl : List Char) : List Char :=
  match s with
  | [] => []
  | a :: rest =>
    if pat.isPrefixOf (a :: rest) then repl ++ (a :: rest).drop pat.length
    else a :: replaceFirstData rest pat repl

/-- JavaScript String.prototype.replace with a string pattern: replaces only
the FIRST occurrence; an empty pattern matches at position 0 (prefixing the
replacement). -/
def replaceFirst (s pat repl : String) : String :=
  if pat = "" then repl ++ s
  else String.mk (replaceFirstData s.data pat.data repl.data)

/-- The whitespace class stripped by JavaScript String.prototype.trim
(restricted to the ASCII whitespace occurring in transcripts). -/
def isJsSpace (c : Char) : Bool :=
  c = ' ' ∨ c = '\t' ∨ c = '\n' ∨ c = '\r'

/-- JavaScript String.prototype.trim. -/
def jsTrim (s : String) : String :=
  String.mk (((s.data.dropWhile isJsSpace).reverse.dropWhile isJsSpace).reverse)

/-- JavaScript String.prototype.toLowerCase (ASCII range, enough for file
extensions). -/
def jsToLower (s : String) : String :=
  String.mk (s.data.map Char.toLower)

/-! ## The speech-to-text adapter's possible JavaScript return shapes
(voiceProcessor.js branches on `typeof transcriptionResult`). -/

/-- A JavaScript value returned by the transcription adapter: a bare string,
an object with `text` and optional `language` fields, or any other shape. -/
inductive JsTranscription where
  | str (s : String)
  | obj (text : String) (language : Option String)
  | other
deriving DecidableEq

/-! ## Oracle environment: all collaborator nondeterminism for one run -/

structure Env where
  /-- Date.now() used by saveAudioBuffer's unique file name. -/
  ts : Nat
  /-- Math.floor(Math.random() * 10000) used by the unique file name. -/
  rnd : Nat
  /-- process.memoryUsage().heapUsed in bytes. -/
  heapUsed : ℚ
  /-- process.memoryUsage().heapTotal in bytes. -/
  heapTotal : ℚ
  /-- fs.promises.writeFile outcome for a non-null buffer: `some msg` means
  the write rejects with that message, `none` means it succeeds. -/
  writeError : Option String
  /-- ffmpeg child-process exit code (0 = conversion succeeded). -/
  ffmpegExitCode : Nat
  /-- ffmpeg stderr text, interpolated into the conversion failure message. -/
  ffmpegStderr : String
  /-- Outcome of the transcription adapter on the staged file. -/
  transcription : Except String JsTranscription
  /-- Outcome of one translate-API call, per source language and target
  language code. -/
  translate : Option String → String → Except String String
  /-- fs.promises.unlink failure oracle, per path. -/
  unlinkFails : String → Bool
  /-- new Date().toISOString() at result-construction time. -/
  now : String

/-! ## Filesystem ledger -/

/-- The temp-directory state visible to one pipeline run: which paths exist
now, and every path the run ever created (for the cleanup invariant). -/
structure Fs where
  existing : List String
  created : List String
deriving DecidableEq

def Fs.empty : Fs := ⟨[], []⟩

def Fs.create (fs : Fs) (p : String) : Fs :=
  ⟨p :: fs.existing, p :: fs.created⟩

/-- fs.promises.unlink: a path exists at most once in a real directory, so
removal deletes every ledger occurrence of it. -/
def Fs.remove (fs : Fs) (p : String) : Fs :=
  ⟨fs.existing.filter (fun q => q ≠ p), fs.created⟩

/-- fs.existsSync. -/
def Fs.hasFile (fs : Fs) (p : String) : Bool :=
  decide (p ∈ fs.existing)

/-! ## MediaHandler (src/utils/mediaHandler.js) -/

/-- Node's TypeError message class when fs.promises.writeFile receives null
data (quotes around the argument name elided). -/
def nullBufferMsg : String :=
  "The data argument must be of type string or an instance of Buffer, TypedArray, or DataView. Received null"

/-- The extension switch at the head of processAudioBuffer (lines 159-204):
unknown MIME types fall back to ogg with a warning, never an error. -/
def mimeExtension (mime : String) : String :=
  if mime = "audio/ogg" ∨ mime = "audio/ogg; codecs=opus" then "ogg"
  else if mime = "audio/wav" then "wav"
  else if mime = "audio/mp4" then "mp4"
  else if mime = "audio/mpeg" then "mp3"
  else "ogg"

/-- The unique temp path built by saveAudioBuffer:
path.join(config.audio.tempDir, `audio_${Date.now()}_${random}.${extension}`). -/
def tempFilePath (env : Env) (ext : String) : String :=
  tempDir ++ "/" ++ "audio_" ++ toString env.ts ++ "_" ++ toString env.rnd ++ "." ++ ext

/-- MediaHandler.saveAudioBuffer: writes the buffer to the unique temp path;
a write failure (or a null buffer, rejected by Node before any write) is
logged and rethrown unchanged. -/
def saveAudioBuffer (env : Env) (fs : Fs) (audioBuffer : Option Nat) (ext : String) :
    Except String String × Fs :=
  let filePath := tempFilePath env ext
  match audioBuffer with
  | none => (Except.error nullBufferMsg, fs)
  | some _ =>
    match env.writeError with
    | some m => (Except.error m, fs)
    | none => (Except.ok filePath, fs.create filePath)

/-- MediaHandler.convertAudioFormat: .wav/.mp3/.mp4 inputs are returned
unchanged; any other extension is converted by ffmpeg to
`inputPath.replace(ext, '_converted.wav')`, creating a second file; a
non-zero ffmpeg exit rejects with the interpolated message and produces no
output file. -/
def convertAudioFormat (env : Env) (fs : Fs) (inputPath : String) :
    Except String String × Fs :=
  let ext := jsToLower (extname inputPath)
  if ext = ".wav" ∨ ext = ".mp3" ∨ ext = ".mp4" then
    (Except.ok inputPath, fs)
  else
    let outputPath := replaceFirst inputPath ext "_converted.wav"
    if env.ffmpegExitCode = 0 then
      (Except.ok outputPath, fs.create outputPath)
    else
      (Except.error ("FFmpeg process exited with code " ++ toString env.ffmpegExitCode
        ++ ", stderr: " ++ env.ffmpegStderr), fs)

/-- MediaHandler.processAudioBuffer: extension lookup, save, convert; errors
are logged and rethrown unchanged, and only the final (possibly converted)
path is returned. -/
def processAudioBuffer (env : Env) (fs : Fs) (audioBuffer : Option Nat) (mime : String) :
    Except String String × Fs :=
  match saveAudioBuffer env fs audioBuffer (mimeExtension mime) with
  | (Except.error e, fs1) => (Except.error e, fs1)
  | (Except.ok tempPath, fs1) => convertAudioFormat env fs1 tempPath

/-- MediaHandler.cleanupTempFile: unlink the path if it exists; any unlink
error is caught and only logged, so the operation is total (never raises). -/
def cleanupTempFile (env : Env) (fs : Fs) (filePath : String) : Fs :=
  if fs.hasFile filePath then
    if env.unlinkFails filePath then fs else fs.remove filePath
  else fs

/-! ## Transcription adapter boundary
(GoogleSpeechToText.transcribeAudioFile) -/

/-- The adapter boundary used by the orchestrator: rejects when the staged
file does not exist, otherwise defers to the adapter oracle; adapter errors
are rethrown as `new Error(handledError.error)`, preserving every non-empty
message. -/
def transcribeAudioFile (env : Env) (fs : Fs) (audioFilePath : String) :
    Except String JsTranscription :=
  if fs.hasFile audioFilePath then
    match env.transcription with
    | Except.error e => Except.error (jsMsgOr e)
    | Except.ok r => Except.ok r
  else
    Except.error ("Audio file does not exist: " ++ audioFilePath)

/-! ## GoogleTranslation (src/lib/services/google/Translation.js) -/

/-- GoogleTranslation.translateText: input validation, one API call, result
passed through string validation (which accepts every string); errors are
rethrown as `new Error(handledError.error)`. -/
def translateText (env : Env) (text : String) (targetLanguage : String)
    (sourceLanguage : Option String) : Except String String :=
  if jsTrim text = "" then
    Except.error "Text to translate is required and must be a non-empty string"
  else if targetLanguage = "" then
    Except.error "Target language is required and must be a string"
  else
    match env.translate sourceLanguage targetLanguage with
    | Except.error e => Except.error (jsMsgOr e)
    | Except.ok t => Except.ok t

/-- The per-language settlement inside translateTextMultiple's map: a
successful call yields the translation, a failed call is caught and yields
the inline failure string for that key. -/
def perLanguageEntry (env : Env) (text : String) (sourceLanguage : Option String)
    (lang : String) : String :=
  match translateText env text lang sourceLanguage with
  | Except.ok t => t
  | Except.error e => "Translation to " ++ lang ++ " failed: " ++ e

/-- GoogleTranslation.translateTextMultiple: validates the inputs, issues
all per-language calls (each one individually caught), and builds the
code-keyed result list in target order; the object validation at the end
accepts every object. -/
def translateTextMultiple (env : Env) (text : String) (targetLanguages : List String)
    (sourceLanguage : Option String) : Except String (List (String × String)) :=
  if jsTrim text = "" then
    Except.error "Text to translate is required and must be a non-empty string"
  else if targetLanguages.isEmpty then
    Except.error "Target languages must be a non-empty array"
  else
    Except.ok (targetLanguages.map (fun lang => (lang, perLanguageEntry env text sourceLanguage lang)))

/-! ## TranslationProcessor (src/utils/translationProcessor.js) -/

/-- JavaScript property read `obj[k]` on a string-keyed record modelled as an
association list: `none` is `undefined`. -/
def jsLookup (l : List (String × String)) (k : String) : Option String :=
  (l.find? (fun p => p.1 = k)).map Prod.snd

/-- JavaScript `a || b` on string-or-undefined values: an empty string is
falsy and falls through to `b`. -/
def jsOrElse (a b : Option String) : Option String :=
  match a with
  | some s => if s = "" then b else some s
  | none => b

/-- TranslationProcessor.translateToTargetLanguages: translates into the
configured codes, then rebuilds the map keyed by language NAME, each value
being `translations[langCode] || translations[langName]` (so a value may be
undefined when the code-keyed entry is an empty string). -/
def translateToTargetLanguages (env : Env) (text : String)
    (sourceLanguage : Option String) : Except String (List (String × Option String)) :=
  if jsTrim text = "" then
    Except.error "Text to translate is required and must be a non-empty string"
  else
    match translateTextMultiple env text (supportedLanguages.map Prod.snd) sourceLanguage with
    | Except.error e => Except.error (jsMsgOr e)
    | Except.ok translations =>
      Except.ok (supportedLanguages.map
        (fun p => (p.1, jsOrElse (jsLookup translations p.2) (jsLookup translations p.1))))

/-- The object returned by processTranslation on success. -/
structure TranslationOutcome where
  originalText : String
  translations : List (String × Option String)
  processedAt : String
deriving DecidableEq

/-- TranslationProcessor.processTranslation: validates the transcribed text,
runs translateToTargetLanguages, and packages the result with a timestamp;
errors are rethrown as `new Error(handledError.error)`. -/
def processTranslation (env : Env) (transcribedText : String)
    (sourceLanguage : Option String) : Except String TranslationOutcome :=
  if jsTrim transcribedText = "" then
    Except.error "Transcribed text is required and must be a non-empty string"
  else
    match translateToTargetLanguages env transcribedText sourceLanguage with
    | Except.error e => Except.error (jsMsgOr e)
    | Except.ok translations =>
      Except.ok ⟨transcribedText, translations, env.now⟩

/-! ## VoiceProcessor (src/utils/voiceProcessor.js) -/

/-- VoiceProcessor.hasSufficientMemory: converts heap counters to MB,
computes percentUsed = heapUsed / heapTotal * 100 and reports whether it is
below 80 (exact rational arithmetic stands in for JS floats; heapTotal is
positive on any real heap). -/
def hasSufficientMemory (env : Env) : Bool :=
  let heapUsed := env.heapUsed / 1024 / 1024
  let heapTotal := env.heapTotal / 1024 / 1024
  let percentUsed := heapUsed / heapTotal * 100
  decide (percentUsed < 80)

/-- The admission rejection thrown for insufficient heap headroom. -/
def memoryMsg : String :=
  "Insufficient memory available for processing this audio file"

/-- The admission rejection thrown for an oversized payload. -/
def sizeMsg (len : Nat) : String :=
  "Audio file too large: " ++ toString len ++ " bytes. Maximum allowed: "
    ++ toString maxFileSize ++ " bytes"

/-- The transcription-stage rejection for empty or whitespace text. -/
def noSpeechMsg : String := "Unable to transcribe audio: No text detected"

/-- The rejection for a transcription result that is neither a string nor an
object with truthy text. -/
def unexpectedFormatMsg : String := "Unexpected transcription result format"

/-- The two admission guards at the head of processVoiceNote (lines 86-103),
both conditioned on the buffer's truthiness: the memory guard for payloads
over half the maximum, then the hard size limit. Returns the thrown message,
or `none` when admission passes. -/
def admissionCheck (env : Env) (audioBuffer : Option Nat) : Option String :=
  match audioBuffer with
  | none => none
  | some len =>
    if len > maxFileSize / 2 ∧ ¬ hasSufficientMemory env then some memoryMsg
    else if len > maxFileSize then some (sizeMsg len) else none

/-- The normalisation of the adapter's return shape (lines 112-127): a bare
string carries no language; an object with truthy text carries text and
language; everything else (including an object whose text is the falsy empty
string) is an unexpected format. -/
def normalizeTranscription (tr : JsTranscription) :
    Except String (String × Option String) :=
  match tr with
  | JsTranscription.str s => Except.ok (s, none)
  | JsTranscription.obj t l =>
    if t ≠ "" then Except.ok (t, l) else Except.error unexpectedFormatMsg
  | JsTranscription.other => Except.error unexpectedFormatMsg

/-- The try-block of VoiceProcessor.processVoiceNote, before the finally:
yields the result (or thrown message, rethrown unchanged by the catch), the
`processedFilePath` variable's final value, and the filesystem ledger. The
final validateResponse(result, 'object') accepts every non-null object and a
freshly built result object is never null, so it imposes no branch. -/
def processVoiceNoteCore (env : Env) (audioBuffer : Option Nat) (mime : String) :
    Except String TranslationOutcome × Option String × Fs :=
  match admissionCheck env audioBuffer with
  | some m => (Except.error m, none, Fs.empty)
  | none =>
    match processAudioBuffer env Fs.empty audioBuffer mime with
    | (Except.error e, fs) => (Except.error e, none, fs)
    | (Except.ok processedFilePath, fs) =>
      match transcribeAudioFile env fs processedFilePath with
      | Except.error e => (Except.error e, some processedFilePath, fs)
      | Except.ok tr =>
        match normalizeTranscription tr with
        | Except.error e => (Except.error e, some processedFilePath, fs)
        | Except.ok (transcribedText, detectedLanguage) =>
          if jsTrim transcribedText = "" then
            (Except.error noSpeechMsg, some processedFilePath, fs)
          else
            match processTranslation env transcribedText detectedLanguage with
            | Except.error e => (Except.error e, some processedFilePath, fs)
            | Except.ok result => (Except.ok result, some processedFilePath, fs)

/-- VoiceProcessor.processVoiceNote: the try-block above, then the finally
block, which cleans up `processedFilePath` when it was assigned (cleanup
errors are caught and only logged). Returns the run's outcome and the final
filesystem ledger. -/
def processVoiceNote (env : Env) (audioBuffer : Option Nat) (mime : String) :
    Except String TranslationOutcome × Fs :=
  match processVoiceNoteCore env audioBuffer mime with
  | (res, some p, fs) => (res, cleanupTempFile env fs p)
  | (res, none, fs) => (res, fs)

/-! ## ResponseFormatter (src/utils/responseFormatter.js) -/

/-- `lang.charAt(0).toUpperCase() + lang.slice(1)`. -/
def capitalize (s : String) : String :=
  match s.data with
  | [] => ""
  | c :: cs => String.mk (c.toUpper :: cs)

/-- ResponseFormatter.formatTranslatedResponse: header, optional original
line (skipped for a falsy — null or empty — original), one line per map
entry in iteration order with the capitalized key as label, fixed footer. -/
def formatTranslatedResponse (translations : List (String × String))
    (originalText : Option String) : String :=
  let header := "*Translated Message:*\n\n"
  let original :=
    match originalText with
    | some t => if t = "" then "" else "*Original:* " ++ t ++ "\n\n"
    | none => ""
  let body := String.join (translations.map
    (fun p => "*" ++ capitalize p.1 ++ ":* " ++ p.2 ++ "\n\n"))
  header ++ original ++ body ++ "_Powered by WhatsApp Translation Bot_"

/-- The reply format as the specification words it: the header line, then
(when a non-empty original text is provided) the Original line, then one
capitalized-label line per map entry in iteration order, then the fixed
footer. Stated independently of the code path to compare against
formatTranslatedResponse. -/
def formatReplySpec (translations : List (String × String))
    (originalText : Option String) : String :=
  "*Translated Message:*\n\n"
    ++ (match originalText with
        | some t => "*Original:* " ++ t ++ "\n\n"
        | none => "")
    ++ String.join (translations.map
        (fun p => "*" ++ capitalize p.1 ++ ":* " ++ p.2 ++ "\n\n"))
    ++ "_Powered by WhatsApp Translation Bot_"

/-- First character of a string, used to separate the pipeline's distinct
error-message families. -/
def strHead (s : String) : Option Char :=
  s.data.head?

/-! ## Concrete collaborator environments for closed runs -/

/-- A fully successful collaborator environment: ample heap headroom, the
write and conversion succeed, the adapter hears "hello", every translation
call answers, unlink works. -/
def envBase : Env :=
  { ts := 1, rnd := 2, heapUsed := 50, heapTotal := 100,
    writeError := none, ffmpegExitCode := 0, ffmpegStderr := "",
    transcription := Except.ok (JsTranscription.str "hello"),
    translate := fun _ _ => Except.ok "t",
    unlinkFails := fun _ => false, now := "2026-01-01T00:00:00.000Z" }

/-- envBase, but the transcription adapter answers the structured object
with empty text and a detected language. -/
def envEmptyObj : Env :=
  { envBase with transcription := Except.ok (JsTranscription.obj "" (some "en-US")) }

/-- envBase, but the translate API answers the empty string for English and
a real translation for the rest. -/
def envEmptyEnglish : Env :=
  { envBase with translate := fun _ code =>
      if code = "en" then Except.ok "" else Except.ok "x" }

/-- envBase, but the translate API fails for Arabic only. -/
def envArabicDown : Env :=
  { envBase with translate := fun _ code =>
      if code = "ar" then Except.error "quota exceeded" else Except.ok "x" }

/-- envBase, but the temp-file write rejects with the bare message boom. -/
def envWriteBoom : Env :=
  { envBase with writeError := some "boom" }

/-- envBase, but the transcription adapter rejects with the bare message
boom. -/
def envSttBoom : Env :=
  { envBase with transcription := Except.error "boom" }

/-- envBase, but the process heap is 90 percent utilised. -/
def envHighHeap : Env :=
  { envBase with heapUsed := 90, heapTotal := 100 }

end WhatsAppVoice

namespace WhatsAppVoice

/-! ## Helper lemmas -/

theorem strHead_append_of_head {s : String} (t : String) {c : Char}
    (h : strHead s = some c) : strHead (s ++ t) = some c := by
  unfold strHead at h ⊢
  rw [String.data_append]
  cases hs : s.data with
  | nil => rw [hs] at h; simp at h
  | cons a l =>
    rw [hs] at h
    simp at h
    simp [h]

theorem strHead_sizeMsg (len : Nat) : strHead (sizeMsg len) = some 'A' := by
  unfold sizeMsg
  apply strHead_append_of_head
  apply strHead_append_of_head
  apply strHead_append_of_head
  apply strHead_append_of_head
  decide

theorem sizeMsg_ne_memoryMsg (len : Nat) : sizeMsg len ≠ memoryMsg := by
  intro h
  have h1 := strHead_sizeMsg len
  rw [h] at h1
  exact absurd h1 (by decide)

theorem nullBufferMsg_ne_sizeMsg (len : Nat) : nullBufferMsg ≠ sizeMsg len := by
  intro h
  have h1 := strHead_sizeMsg len
  rw [← h] at h1
  exact absurd h1 (by decide)

theorem hasSufficientMemory_envBase : hasSufficientMemory envBase = true := by
  unfold hasSufficientMemory envBase
  simp only [decide_eq_true_eq]
  norm_num

theorem saveAudioBuffer_ok (env : Env) (fs : Fs) (len : Nat) (ext : String)
    (hw : env.writeError = none) :
    saveAudioBuffer env fs (some len) ext =
      (Except.ok (tempFilePath env ext), fs.create (tempFilePath env ext)) := by
  unfold saveAudioBuffer
  rw [hw]

theorem processAudioBuffer_stages (env : Env) (len : Nat) (mime : String)
    (hw : env.writeError = none) (hff : env.ffmpegExitCode = 0) :
    ∃ p fs, processAudioBuffer env Fs.empty (some len) mime = (Except.ok p, fs) ∧
      p ∈ fs.existing := by
  unfold processAudioBuffer
  simp only [saveAudioBuffer_ok env Fs.empty len (mimeExtension mime) hw,
    convertAudioFormat, hff, eq_self_iff_true, if_true]
  split
  · exact ⟨_, _, rfl, by simp [Fs.create]⟩
  · exact ⟨_, _, rfl, by simp [Fs.create]⟩

theorem core_staged_shape (env : Env) (len : Nat) (mime : String) (p : String) (fs : Fs)
    (hadm : admissionCheck env (some len) = none)
    (hstage : processAudioBuffer env Fs.empty (some len) mime = (Except.ok p, fs))
    (hf : fs.hasFile p = true) :
    ∃ res, processVoiceNoteCore env (some len) mime = (res, some p, fs) := by
  unfold processVoiceNoteCore
  simp only [hadm, hstage, transcribeAudioFile, hf, if_true]
  cases htr : env.transcription with
  | error e => exact ⟨_, rfl⟩
  | ok tr =>
    cases tr with
    | str s =>
      by_cases hts : jsTrim s = ""
      · simp [normalizeTranscription, hts]
      · simp only [normalizeTranscription, hts]
        cases hpt : processTranslation env s none with
        | error e => simp [hpt]
        | ok r => simp [hpt]
    | obj t l =>
      by_cases ht : t = ""
      · simp [normalizeTranscription, ht]
      · simp only [normalizeTranscription, ht]
        by_cases hts : jsTrim t = ""
        · simp [ht, hts]
        · cases hpt : processTranslation env t l with
          | error e => simp [ht, hts, hpt]
          | ok r => simp [ht, hts, hpt]
    | other => exact ⟨_, rfl⟩

theorem run_cleanup_after_staging (env : Env) (len : Nat) (mime : String) (p : String) (fs : Fs)
    (hadm : admissionCheck env (some len) = none)
    (hstage : processAudioBuffer env Fs.empty (some len) mime = (Except.ok p, fs))
    (hf : fs.hasFile p = true) :
    (processVoiceNote env (some len) mime).2 = cleanupTempFile env fs p := by
  obtain ⟨res, hcore⟩ := core_staged_shape env len mime p fs hadm hstage hf
  unfold processVoiceNote
  rw [hcore]

theorem mem_cleanup_self_false (env : Env) (fs : Fs) (p : String)
    (hu : env.unlinkFails p = false) :
    p ∉ (cleanupTempFile env fs p).existing := by
  unfold cleanupTempFile
  cases hf : fs.hasFile p with
  | false =>
    simp only [hf, Bool.false_eq_true, if_false]
    unfold Fs.hasFile at hf
    exact of_decide_eq_false hf
  | true =>
    simp [hf, hu, Fs.remove, List.mem_filter]

theorem run_transcription_str_empty (env : Env) (len : Nat) (mime : String) (p : String)
    (fs : Fs) (s : String)
    (hadm : admissionCheck env (some len) = none)
    (hstage : processAudioBuffer env Fs.empty (some len) mime = (Except.ok p, fs))
    (hf : fs.hasFile p = true)
    (htr : env.transcription = Except.ok (JsTranscription.str s))
    (hs : jsTrim s = "") :
    processVoiceNote env (some len) mime =
      (Except.error noSpeechMsg, cleanupTempFile env fs p) := by
  unfold processVoiceNote processVoiceNoteCore
  simp [hadm, hstage, transcribeAudioFile, hf, htr, normalizeTranscription, hs]

theorem run_transcription_obj_empty (env : Env) (len : Nat) (mime : String) (p : String)
    (fs : Fs) (l : Option String)
    (hadm : admissionCheck env (some len) = none)
    (hstage : processAudioBuffer env Fs.empty (some len) mime = (Except.ok p, fs))
    (hf : fs.hasFile p = true)
    (htr : env.transcription = Except.ok (JsTranscription.obj "" l)) :
    processVoiceNote env (some len) mime =
      (Except.error unexpectedFormatMsg, cleanupTempFile env fs p) := by
  unfold processVoiceNote processVoiceNoteCore
  simp [hadm, hstage, transcribeAudioFile, hf, htr, normalizeTranscription]

theorem run_transcription_error (env : Env) (len : Nat) (mime : String) (p : String)
    (fs : Fs) (e : String)
    (hadm : admissionCheck env (some len) = none)
    (hstage : processAudioBuffer env Fs.empty (some len) mime = (Except.ok p, fs))
    (hf : fs.hasFile p = true)
    (htr : env.transcription = Except.error e) (he : e ≠ "") :
    processVoiceNote env (some len) mime =
      (Except.error e, cleanupTempFile env fs p) := by
  unfold processVoiceNote processVoiceNoteCore
  simp [hadm, hstage, transcribeAudioFile, hf, htr, jsMsgOr, he]

/-! ## Claim theorems -/

/-- C1: a run that stages an ogg voice note and converts it leaves the
originally saved file on disk after the call returns. The valid input
(buffer of 4 bytes, MIME audio/ogg, every collaborator succeeding) completes
successfully, both temp/audio_1_2.ogg and temp/audio_1_2_converted.wav were
created during the run, the converted file is removed by the finally block,
but the original saved file still exists — refuting the cleanup invariant as
stated and exhibiting the slip against the code's own always-freed cleanup
comments. -/
theorem C1_original_file_leak :
    (processVoiceNote envBase (some 4) "audio/ogg").1.isOk = true ∧
    "temp/audio_1_2.ogg" ∈ (processVoiceNote envBase (some 4) "audio/ogg").2.created ∧
    "temp/audio_1_2.ogg" ∈ (processVoiceNote envBase (some 4) "audio/ogg").2.existing ∧
    "temp/audio_1_2_converted.wav" ∈ (processVoiceNote envBase (some 4) "audio/ogg").2.created ∧
    "temp/audio_1_2_converted.wav" ∉ (processVoiceNote envBase (some 4) "audio/ogg").2.existing := by
  decide

/-- C2 counterexample: when the transcription adapter answers the structured
object with empty text and language en-US (the spec's silent-audio
scenario), the run does fail and never succeeds, but its classification is
the format rejection Unexpected transcription result format, not the no
speech detected message the claim requires: the object branch of
processVoiceNote (line 121) tests the truthiness of the text field, so empty
text falls through to the unexpected-format throw before the empty-text
check is reached. -/
theorem C2_counterexample :
    (processVoiceNote envEmptyObj (some 4) "audio/ogg").1 = Except.error unexpectedFormatMsg ∧
    (processVoiceNote envEmptyObj (some 4) "audio/ogg").1 ≠ Except.error noSpeechMsg ∧
    (processVoiceNote envEmptyObj (some 4) "audio/ogg").1.isOk = false := by
  have h1 : (processVoiceNote envEmptyObj (some 4) "audio/ogg").1 =
      Except.error unexpectedFormatMsg := rfl
  refine ⟨h1, ?_, rfl⟩
  intro h
  rw [h1] at h
  exact absurd (Except.error.inj h) (by decide)

/-- C2 amended: an empty or all-whitespace transcription never yields a
success, and once staging succeeded the returned staged path is removed by
the finally block; the failure classification depends on the adapter's
shape: a bare empty/whitespace string fails with the no-speech message,
while a structured object with empty text fails with the unexpected-format
message (the object branch tests JavaScript truthiness of text, so the empty
string never reaches the no-speech check). -/
theorem C2_empty_transcript (env : Env) (len : Nat) (mime : String)
    (hadm : admissionCheck env (some len) = none)
    (hw : env.writeError = none) (hff : env.ffmpegExitCode = 0)
    (hu : ∀ q, env.unlinkFails q = false) :
    ((∀ s, env.transcription = Except.ok (JsTranscription.str s) → jsTrim s = "" →
        (processVoiceNote env (some len) mime).1 = Except.error noSpeechMsg) ∧
     (∀ l, env.transcription = Except.ok (JsTranscription.obj "" l) →
        (processVoiceNote env (some len) mime).1 = Except.error unexpectedFormatMsg)) ∧
    (∀ p fs, processAudioBuffer env Fs.empty (some len) mime = (Except.ok p, fs) →
        p ∉ (processVoiceNote env (some len) mime).2.existing) ∧
    (((processVoiceNote env (some len) mime).1 = Except.error noSpeechMsg ∨
      (processVoiceNote env (some len) mime).1 = Except.error unexpectedFormatMsg) →
        (processVoiceNote env (some len) mime).1.isOk = false) := by
  obtain ⟨p0, fs0, hstage0, hmem0⟩ := processAudioBuffer_stages env len mime hw hff
  have hf0 : fs0.hasFile p0 = true := by
    unfold Fs.hasFile
    exact decide_eq_true hmem0
  refine ⟨⟨?_, ?_⟩, ?_, ?_⟩
  · intro s htr hs
    rw [run_transcription_str_empty env len mime p0 fs0 s hadm hstage0 hf0 htr hs]
  · intro l htr
    rw [run_transcription_obj_empty env len mime p0 fs0 l hadm hstage0 hf0 htr]
  · intro p fs hstage
    rw [hstage0] at hstage
    have hp : p0 = p := Except.ok.inj (congrArg Prod.fst hstage)
    rw [← hp, run_cleanup_after_staging env len mime p0 fs0 hadm hstage0 hf0]
    exact mem_cleanup_self_false env fs0 p0 (hu p0)
  · intro h
    rcases h with h | h <;> rw [h] <;> rfl

/-- Witness for the amended C2 at the silent-audio scenario: structured
empty-text transcription gives the unexpected-format failure and the
returned staged file (the converted wav) is gone afterwards. -/
theorem C2_witness :
    (processVoiceNote envEmptyObj (some 4) "audio/ogg").1 = Except.error unexpectedFormatMsg ∧
    "temp/audio_1_2_converted.wav" ∉
      (processVoiceNote envEmptyObj (some 4) "audio/ogg").2.existing := by
  have h := C2_empty_transcript envEmptyObj 4 "audio/ogg" (by decide) rfl rfl (fun q => rfl)
  exact ⟨h.1.2 (some "en-US") rfl,
    h.2.1 "temp/audio_1_2_converted.wav"
      ((Fs.empty.create "temp/audio_1_2.ogg").create "temp/audio_1_2_converted.wav") rfl⟩

/-- C7 counterexample: a staging failure and a transcription failure with
the same underlying message produce byte-identical pipeline errors — the
orchestrator rethrows the original message with no stage identifier
attached, so the caller cannot distinguish the stages (the two runs really
are at different stages: the first created no file, the second created and
converted the staged audio). -/
theorem C7_counterexample :
    (processVoiceNote envWriteBoom (some 4) "audio/ogg").1 = Except.error "boom" ∧
    (processVoiceNote envSttBoom (some 4) "audio/ogg").1 = Except.error "boom" ∧
    (processVoiceNote envWriteBoom (some 4) "audio/ogg").1 =
      (processVoiceNote envSttBoom (some 4) "audio/ogg").1 ∧
    (processVoiceNote envWriteBoom (some 4) "audio/ogg").2.created = [] ∧
    "temp/audio_1_2_converted.wav" ∈ (processVoiceNote envSttBoom (some 4) "audio/ogg").2.created := by
  exact ⟨rfl, rfl, rfl, rfl, by decide⟩

/-- C7 amended: the orchestrator never swallows a stage failure — the
original error message is preserved verbatim on the way out (the catch
blocks rethrow, and ErrorHandler.handleError keeps every non-empty
message) — but no stage identifier is attached to it; callers can
distinguish stages only as far as the messages themselves differ. -/
theorem C7_message_preserved (env : Env) (len : Nat) (mime : String) (e : String)
    (hadm : admissionCheck env (some len) = none) :
    (env.writeError = some e →
      (processVoiceNote env (some len) mime).1 = Except.error e) ∧
    (env.writeError = none → env.ffmpegExitCode = 0 → e ≠ "" →
      env.transcription = Except.error e →
      (processVoiceNote env (some len) mime).1 = Except.error e) := by
  constructor
  · intro hwe
    unfold processVoiceNote processVoiceNoteCore processAudioBuffer saveAudioBuffer
    simp [hadm, hwe]
  · intro hw hff he htr
    obtain ⟨p0, fs0, hstage0, hmem0⟩ := processAudioBuffer_stages env len mime hw hff
    have hf0 : fs0.hasFile p0 = true := by
      unfold Fs.hasFile
      exact decide_eq_true hmem0
    rw [run_transcription_error env len mime p0 fs0 e hadm hstage0 hf0 htr he]

/-- Witness for the amended C7: the two boom runs, message preserved. -/
theorem C7_witness :
    (processVoiceNote envWriteBoom (some 4) "audio/ogg").1 = Except.error "boom" ∧
    (processVoiceNote envSttBoom (some 4) "audio/ogg").1 = Except.error "boom" := by
  refine ⟨(C7_message_preserved envWriteBoom 4 "audio/ogg" "boom" (by decide)).1 rfl, ?_⟩
  exact (C7_message_preserved envSttBoom 4 "audio/ogg" "boom" (by decide)).2 rfl rfl (by decide) rfl

/-- C3: a payload exactly at the configured maximum is never rejected for
size (admission at that size is either allowed or, at most, the distinct
memory rejection), and any payload over the maximum makes processVoiceNote
throw during admission with no file ever created: the run returns the
file-too-large error whenever the memory probe passes, the memory error
otherwise, and the filesystem ledger stays empty. -/
theorem C3_admission_boundary (env : Env) (len : Nat) (mime : String) :
    admissionCheck env (some maxFileSize) =
      (if hasSufficientMemory env then none else some memoryMsg) ∧
    (maxFileSize < len →
      processVoiceNote env (some len) mime =
        (Except.error (if hasSufficientMemory env then sizeMsg len else memoryMsg),
          Fs.empty)) := by
  constructor
  · unfold admissionCheck
    cases hm : hasSufficientMemory env with
    | true => simp [hm, maxFileSize]
    | false => simp [hm, maxFileSize]
  · intro hlen
    have hhalf : maxFileSize / 2 < len := by
      revert hlen
      unfold maxFileSize
      omega
    have hadm : admissionCheck env (some len) =
        some (if hasSufficientMemory env then sizeMsg len else memoryMsg) := by
      unfold admissionCheck
      cases hm : hasSufficientMemory env with
      | true => simp [hm, hlen]
      | false => simp [hm, hhalf]
    have hcore : processVoiceNoteCore env (some len) mime =
        (Except.error (if hasSufficientMemory env then sizeMsg len else memoryMsg),
          none, Fs.empty) := by
      unfold processVoiceNoteCore
      rw [hadm]
    unfold processVoiceNote
    rw [hcore]

/-- Witness for C3 at the spec's oversized scenario: 17,000,000 bytes
against the 16,000,000 maximum is rejected as too large with nothing
staged. -/
theorem C3_witness :
    maxFileSize < 17000000 ∧
    processVoiceNote envBase (some 17000000) "audio/ogg" =
      (Except.error (sizeMsg 17000000), Fs.empty) := by
  have hm : hasSufficientMemory envBase = true := hasSufficientMemory_envBase
  have h := (C3_admission_boundary envBase 17000000 "audio/ogg").2 (by decide)
  simp [hm] at h
  exact ⟨by decide, h⟩

/-- C4: the memory guard fires only for payloads strictly over half the
configured maximum — a payload of at most half is never rejected for
memory, whatever the heap looks like — and for larger payloads the distinct
insufficient-memory rejection happens exactly when heap utilization
heapUsed/heapTotal (scaled to percent) is at least 80. -/
theorem C4_memory_guard (env : Env) (len : Nat) (hT : 0 < env.heapTotal) :
    (len ≤ maxFileSize / 2 → admissionCheck env (some len) ≠ some memoryMsg) ∧
    (maxFileSize / 2 < len →
      (admissionCheck env (some len) = some memoryMsg ↔
        80 ≤ env.heapUsed / env.heapTotal * 100)) := by
  have hne : env.heapTotal ≠ 0 := ne_of_gt hT
  have hmemiff : hasSufficientMemory env = false ↔
      80 ≤ env.heapUsed / env.heapTotal * 100 := by
    have hpu : env.heapUsed / 1024 / 1024 / (env.heapTotal / 1024 / 1024) * 100 =
        env.heapUsed / env.heapTotal * 100 := by
      field_simp
    unfold hasSufficientMemory
    simp only [hpu, decide_eq_false_iff_not, not_lt]
  constructor
  · intro hle heq
    have hle8 : len ≤ 8000000 := hle
    simp only [admissionCheck] at heq
    rw [if_neg, if_neg] at heq
    · exact Option.noConfusion heq
    · intro hgt
      exact absurd (show (16000000 : Nat) < len from hgt) (by omega)
    · rintro ⟨hgt, -⟩
      exact absurd (show (8000000 : Nat) < len from hgt) (by omega)
  · intro hgt
    constructor
    · intro heq
      by_cases hm : hasSufficientMemory env = true
      · exfalso
        simp only [admissionCheck] at heq
        rw [if_neg] at heq
        · split at heq
          · exact sizeMsg_ne_memoryMsg len (Option.some.inj heq)
          · exact Option.noConfusion heq
        · rintro ⟨-, hnot⟩
          exact hnot hm
      · exact hmemiff.mp (Bool.not_eq_true _ ▸ hm)
    · intro hge
      have hm : hasSufficientMemory env = false := hmemiff.mpr hge
      simp only [admissionCheck]
      rw [if_pos ⟨hgt, by simp [hm]⟩]

/-- Witness for C4: a 9,000,000-byte payload (over half of 16,000,000) on a
90-percent-utilised heap is rejected with the memory reason. -/
theorem C4_witness :
    0 < envHighHeap.heapTotal ∧
    maxFileSize / 2 < 9000000 ∧
    admissionCheck envHighHeap (some 9000000) = some memoryMsg ∧
    80 ≤ envHighHeap.heapUsed / envHighHeap.heapTotal * 100 := by
  have hT : 0 < envHighHeap.heapTotal := by norm_num [envHighHeap, envBase]
  have h80 : 80 ≤ envHighHeap.heapUsed / envHighHeap.heapTotal * 100 := by
    norm_num [envHighHeap, envBase]
  have h := (C4_memory_guard envHighHeap 9000000 hT).2 (by decide)
  exact ⟨hT, by decide, h.mpr h80, h80⟩

/-- C5: translateTextMultiple attempts every target language independently:
when the single-language call fails for one language, the whole call still
succeeds, that language's key carries the inline failure string built from
the error message, every language whose call succeeds keeps its correct
translation, one entry exists per requested code, and the surrounding
processTranslation run still completes successfully. -/
theorem C5_partial_failure_isolation (env : Env) (text : String) (src : Option String)
    (codes : List String) (failLang : String) (e : String)
    (ht : jsTrim text ≠ "") (hmem : failLang ∈ codes)
    (hfail : translateText env text failLang src = Except.error e) :
    ∃ l, translateTextMultiple env text codes src = Except.ok l ∧
      (failLang, "Translation to " ++ failLang ++ " failed: " ++ e) ∈ l ∧
      (∀ lang t, lang ∈ codes → translateText env text lang src = Except.ok t →
        (lang, t) ∈ l) ∧
      l.length = codes.length ∧
      ∃ r, processTranslation env text src = Except.ok r := by
  have hne : codes ≠ [] := List.ne_nil_of_mem hmem
  have hemp : ¬ (codes.isEmpty = true) := by
    cases codes with
    | nil => exact absurd rfl hne
    | cons a as => simp
  refine ⟨codes.map (fun lang => (lang, perLanguageEntry env text src lang)),
    ?_, ?_, ?_, ?_, ?_⟩
  · unfold translateTextMultiple
    rw [if_neg ht, if_neg hemp]
  · have hin := List.mem_map_of_mem
      (fun lang => (lang, perLanguageEntry env text src lang)) hmem
    simpa [perLanguageEntry, hfail] using hin
  · intro lang t hl htt
    have hin := List.mem_map_of_mem
      (fun lang => (lang, perLanguageEntry env text src lang)) hl
    simpa [perLanguageEntry, htt] using hin
  · simp
  · unfold processTranslation translateToTargetLanguages translateTextMultiple
    rw [if_neg ht, if_neg ht, if_neg ht, if_neg (by decide :
      ¬ ((supportedLanguages.map Prod.snd).isEmpty = true))]
    exact ⟨_, rfl⟩

/-- Witness for C5: with the translate API failing only for Arabic on the
text hola, the multi-translation still succeeds, Arabic carries the inline
failure string, and English keeps its translation. -/
theorem C5_witness :
    jsTrim "hola" ≠ "" ∧
    "ar" ∈ ["en", "ar", "hi", "es"] ∧
    ∃ l, translateTextMultiple envArabicDown "hola" ["en", "ar", "hi", "es"] none = Except.ok l ∧
      ("ar", "Translation to " ++ "ar" ++ " failed: " ++ "quota exceeded") ∈ l ∧
      ("en", "x") ∈ l := by
  obtain ⟨l, h1, h2, h3, h4, h5⟩ := C5_partial_failure_isolation envArabicDown "hola" none
    ["en", "ar", "hi", "es"] "ar" "quota exceeded" (by decide) (by decide) rfl
  exact ⟨by decide, by decide, l, h1, h2, h3 "en" "x" (by decide) rfl⟩

/-- The canonical shape of a successful translateToTargetLanguages result:
one entry per configured language name, in configuration order, each bound
to the per-code settlement — except that an empty-string settlement is
dropped to undefined by the JavaScript or-fallback. -/
theorem translateToTargetLanguages_eq (env : Env) (text : String) (src : Option String)
    (ht : jsTrim text ≠ "") :
    translateToTargetLanguages env text src = Except.ok
      (supportedLanguages.map (fun p =>
        (p.1, if perLanguageEntry env text src p.2 = "" then none
              else some (perLanguageEntry env text src p.2)))) := by
  unfold translateToTargetLanguages translateTextMultiple
  rw [if_neg ht, if_neg ht, if_neg (by decide :
    ¬ ((supportedLanguages.map Prod.snd).isEmpty = true))]
  rfl

/-- A defined entry value is never the empty string when it arises from the
or-fallback of a per-code settlement. -/
theorem ite_some_ne_empty {e v : String}
    (h : (if e = "" then (none : Option String) else some e) = some v) : v ≠ "" := by
  by_cases he : e = ""
  · simp [he] at h
  · simp [he] at h
    exact h ▸ he

/-- C6 counterexample: the claim requires every configured key to be bound
to a translation or a per-language failure string, but when the translate
API answers the empty string for English, the rebuild step
`translations[langCode] || translations[langName]` treats the empty string
as falsy and falls through to the undefined name-keyed lookup: the english
key is present but bound to undefined — neither a translation nor a failure
string. -/
theorem C6_counterexample :
    ∃ l, translateToTargetLanguages envEmptyEnglish "hello" none = Except.ok l ∧
      l.map Prod.fst = ["english", "arabic", "hindi", "spanish"] ∧
      ("english", (none : Option String)) ∈ l ∧
      ∀ s : String, ("english", some s) ∉ l := by
  refine ⟨[("english", none), ("arabic", some "x"), ("hindi", some "x"), ("spanish", some "x")],
    rfl, rfl, by decide, ?_⟩
  intro s h
  simp only [List.mem_cons, List.not_mem_nil, or_false] at h
  rcases h with h | h | h | h
  · injection h with h1 h2
    exact Option.noConfusion h2
  · injection h with h1 h2
    exact absurd h1 (by decide)
  · injection h with h1 h2
    exact absurd h1 (by decide)
  · injection h with h1 h2
    exact absurd h1 (by decide)

/-- C6 amended: every successful translation stage yields a map whose keys
are exactly english, arabic, hindi, spanish in configuration order; each key
is bound to its per-code settlement (translation or inline failure string)
whenever that settlement is non-empty, and to undefined exactly when the
settlement is the empty string; every defined binding is a non-empty
string. -/
theorem C6_target_language_keys (env : Env) (text : String) (src : Option String)
    (ht : jsTrim text ≠ "") :
    ∃ l, translateToTargetLanguages env text src = Except.ok l ∧
      l.map Prod.fst = ["english", "arabic", "hindi", "spanish"] ∧
      (∀ name code, (name, code) ∈ supportedLanguages →
        (name, if perLanguageEntry env text src code = "" then none
               else some (perLanguageEntry env text src code)) ∈ l) ∧
      (∀ q, q ∈ l → ∀ v, q.2 = some v → v ≠ "") := by
  refine ⟨_, translateToTargetLanguages_eq env text src ht, rfl, ?_, ?_⟩
  · intro name code hmem
    simp only [supportedLanguages, List.mem_cons, List.not_mem_nil, or_false] at hmem
    rcases hmem with h | h | h | h <;> cases h
    · exact List.Mem.head _
    · exact List.Mem.tail _ (List.Mem.head _)
    · exact List.Mem.tail _ (List.Mem.tail _ (List.Mem.head _))
    · exact List.Mem.tail _ (List.Mem.tail _ (List.Mem.tail _ (List.Mem.head _)))
  · intro q hq v hv
    simp only [supportedLanguages, List.map_cons, List.map_nil, List.mem_cons,
      List.not_mem_nil, or_false] at hq
    rcases hq with h | h | h | h <;> subst h <;> exact ite_some_ne_empty hv

/-- Witness for C6 amended: the fully successful base environment yields
exactly the four configured keys, each bound to the translation t. -/
theorem C6_witness :
    jsTrim "hello" ≠ "" ∧
    (∃ l, translateToTargetLanguages envBase "hello" none = Except.ok l ∧
      l.map Prod.fst = ["english", "arabic", "hindi", "spanish"]) ∧
    translateToTargetLanguages envBase "hello" none = Except.ok
      [("english", some "t"), ("arabic", some "t"), ("hindi", some "t"), ("spanish", some "t")] := by
  obtain ⟨l, h1, h2, h3, h4⟩ := C6_target_language_keys envBase "hello" none (by decide)
  exact ⟨by decide, ⟨l, h1, h2⟩, rfl⟩

/-- C8: formatTranslatedResponse is a pure function of its two arguments (in
this embedding it is a plain function, so two calls with equal inputs are
definitionally equal), and on every translations map with the original text
either absent or non-empty it renders exactly the claimed shape — header
line, optional Original line, one capitalized-label line per entry in map
iteration order, fixed footer — as captured by the independently stated
formatReplySpec. (JavaScript truthiness makes the code treat an EMPTY
provided original like an absent one; the claim's provided original text is
therefore read as a non-empty one.) -/
theorem C8_format_reply (translations : List (String × String))
    (originalText : Option String)
    (h : ∀ t, originalText = some t → t ≠ "") :
    formatTranslatedResponse translations originalText =
      formatReplySpec translations originalText := by
  cases originalText with
  | none => rfl
  | some t =>
    have ht : t ≠ "" := h t rfl
    simp [formatTranslatedResponse, formatReplySpec, ht]

/-- Witness for C8: a concrete two-language map with original text hola,
rendered both ways and fully evaluated. -/
theorem C8_witness :
    (∀ t, (some "hola" : Option String) = some t → t ≠ "") ∧
    formatTranslatedResponse [("english", "hello"), ("arabic", "marhaba")] (some "hola") =
      formatReplySpec [("english", "hello"), ("arabic", "marhaba")] (some "hola") ∧
    formatTranslatedResponse [("english", "hello"), ("arabic", "marhaba")] (some "hola") =
      "*Translated Message:*\n\n*Original:* hola\n\n*English:* hello\n\n*Arabic:* marhaba\n\n_Powered by WhatsApp Translation Bot_" := by
  have hyp : ∀ t, (some "hola" : Option String) = some t → t ≠ "" := by
    intro t hsome
    rw [← Option.some.inj hsome]
    decide
  exact ⟨hyp,
    C8_format_reply [("english", "hello"), ("arabic", "marhaba")] (some "hola") hyp,
    by decide⟩

/-- C9: cleanupTempFile is total by construction (every unlink error is
caught and only logged, so its type carries no error channel), calling it
twice with the same path equals calling it once, and calling it on a path
that does not exist leaves the filesystem untouched. -/
theorem C9_cleanup_idempotent (env : Env) (fs : Fs) (p : String) :
    cleanupTempFile env (cleanupTempFile env fs p) p = cleanupTempFile env fs p ∧
    (fs.hasFile p = false → cleanupTempFile env fs p = fs) := by
  constructor
  · cases hf : fs.hasFile p with
    | false =>
      have hinner : cleanupTempFile env fs p = fs := by
        unfold cleanupTempFile
        simp [hf]
      simp only [hinner]
    | true =>
      cases hu : env.unlinkFails p with
      | true =>
        have hinner : cleanupTempFile env fs p = fs := by
          unfold cleanupTempFile
          simp [hf, hu]
        simp only [hinner]
      | false =>
        have hinner : cleanupTempFile env fs p = fs.remove p := by
          unfold cleanupTempFile
          simp [hf, hu]
        rw [hinner]
        have hnot : p ∉ (fs.remove p).existing := by
          simp [Fs.remove, List.mem_filter]
        have hrm : (fs.remove p).hasFile p = false := by
          unfold Fs.hasFile
          exact decide_eq_false hnot
        unfold cleanupTempFile
        simp [hrm]
  · intro hf
    unfold cleanupTempFile
    simp [hf]

/-- Witness for C9 on a never-created handle: double cleanup agrees with
single cleanup and an absent path is left alone. -/
theorem C9_witness :
    Fs.empty.hasFile "temp/a.ogg" = false ∧
    cleanupTempFile envBase (cleanupTempFile envBase Fs.empty "temp/a.ogg") "temp/a.ogg" =
      cleanupTempFile envBase Fs.empty "temp/a.ogg" ∧
    cleanupTempFile envBase Fs.empty "temp/a.ogg" = Fs.empty := by
  have h := C9_cleanup_idempotent envBase Fs.empty "temp/a.ogg"
  exact ⟨by decide, h.1, h.2 (by decide)⟩

/-- C10: with a null (or undefined) audio buffer both admission guards are
skipped (their shared truthiness guard fails), the buffer reaches the
staging write, and the run fails there with Node's null-data rejection — a
staging failure distinct from both admission messages — with nothing ever
created. -/
theorem C10_null_buffer (env : Env) (mime : String) :
    admissionCheck env none = none ∧
    processVoiceNote env none mime = (Except.error nullBufferMsg, Fs.empty) ∧
    nullBufferMsg ≠ memoryMsg ∧
    (∀ len, nullBufferMsg ≠ sizeMsg len) := by
  refine ⟨rfl, rfl, by decide, fun len => nullBufferMsg_ne_sizeMsg len⟩

/-- Witness for C10 at a concrete environment and MIME type. -/
theorem C10_witness :
    admissionCheck envBase none = none ∧
    processVoiceNote envBase none "audio/ogg" = (Except.error nullBufferMsg, Fs.empty) ∧
    nullBufferMsg ≠ sizeMsg 17000000 := by
  have h := C10_null_buffer envBase "audio/ogg"
  exact ⟨h.1, h.2.1, h.2.2.2 17000000⟩

end WhatsAppVoice
